import Mathlib

/-
  Verification of the double-entry ledger engine and expense payout workflow.

  Shallow embedding notes:
  - JS numbers are modelled as Rat (exact rationals); all concrete values in
    the claims are small integers or simple rationals, exactly representable.
  - Math.round(x) in JS is floor(x + 0.5); modelled by jsRound.
  - The JS pattern (x || d), where 0 and undefined are falsy, is modelled by
    jsOrDefault over Option Rat.
  - External collaborators (FX rate lookup, payment providers, permission
    predicates, database lookups) are passed in as explicit parameters or
    environment fields, mirroring the values the code obtains from them.
  - Thrown errors become Except values; error messages that interpolate
    values are modelled as constructors carrying exactly the interpolated
    values of the corresponding source template.
-/

namespace OC

/-- Decidable equality for Except results, used to evaluate the embedded
functions on concrete inputs. -/
instance exceptDecidableEq {ε α : Type} [DecidableEq ε] [DecidableEq α] :
    DecidableEq (Except ε α) := fun x y =>
  match x, y with
  | Except.ok a, Except.ok b =>
    if h : a = b then Decidable.isTrue (by rw [h]) else Decidable.isFalse (by simp [h])
  | Except.ok _, Except.error _ => Decidable.isFalse (by simp)
  | Except.error _, Except.ok _ => Decidable.isFalse (by simp)
  | Except.error a, Except.error b =>
    if h : a = b then Decidable.isTrue (by rw [h]) else Decidable.isFalse (by simp [h])

/-- JS Math.round: round half toward positive infinity, floor (x + 1/2). -/
def jsRound (x : Rat) : Int := ⌊x + 1/2⌋

/-- JS (x || d) over an optional number: undefined and 0 are falsy. -/
def jsOrDefault (o : Option Rat) (d : Rat) : Rat :=
  match o with
  | none => d
  | some x => if x = 0 then d else x

/-- Modelled from the spec: lib/math.toNegative is not under src; per the
spec fee fields are stored as negative numbers by convention, so a positive
value is negated and any other value kept. -/
def toNegative (x : Rat) : Rat := if x > 0 then -x else x

/-- Transaction.type values (DEBIT or CREDIT), from models/Transaction. -/
inductive TxType where
  | CREDIT
  | DEBIT
deriving DecidableEq, Repr

/-- The fields of a Collective row read by createDoubleEntry: whether the
fromCollective is active, its currency, and its host. -/
structure Collective where
  isActive : Bool
  currency : String
  HostCollectiveId : Option Int
deriving DecidableEq, Repr

/-- The transaction payload handed to Transaction.createDoubleEntry or
Transaction.createFeesOnTopTransaction, before the builder fills defaults.
Optional fields model JS undefined. The data.isFeesOnTop flag and the
data.hostToPlatformFxRate audit value are lifted to top-level fields. -/
structure TxIntent where
  amount : Rat := 0
  currency : String := "USD"
  hostCurrency : String := "USD"
  FromCollectiveId : Int := 0
  CollectiveId : Int := 0
  HostCollectiveId : Option Int := none
  netAmountInCollectiveCurrency : Option Rat := none
  hostCurrencyFxRate : Option Rat := none
  amountInHostCurrency : Option Rat := none
  hostFeeInHostCurrency : Rat := 0
  platformFeeInHostCurrency : Rat := 0
  paymentProcessorFeeInHostCurrency : Rat := 0
  dataIsFeesOnTop : Bool := false
  dataHostToPlatformFxRate : Option Rat := none
deriving DecidableEq, Repr

/-- Line 405: transaction.netAmountInCollectiveCurrency falls back to
transaction.amount when undefined or 0 (JS falsiness of the or-operator). -/
def effectiveNet (t : TxIntent) : Rat :=
  jsOrDefault t.netAmountInCollectiveCurrency t.amount

/-- Line 407 and line 512: transaction.hostCurrencyFxRate or 1. -/
def effectiveHostFxRate (t : TxIntent) : Rat :=
  jsOrDefault t.hostCurrencyFxRate 1

/-- A built ledger entry (a Transaction row as assembled by
createDoubleEntry before persistence). -/
structure LedgerTx where
  type : TxType
  amount : Rat
  currency : String
  hostCurrency : String
  FromCollectiveId : Int
  CollectiveId : Int
  HostCollectiveId : Option Int
  hostCurrencyFxRate : Rat
  amountInHostCurrency : Option Rat
  netAmountInCollectiveCurrency : Rat
  hostFeeInHostCurrency : Rat
  platformFeeInHostCurrency : Rat
  paymentProcessorFeeInHostCurrency : Rat
  dataOppositeFxRate : Option Rat
deriving DecidableEq, Repr

/-- The mutated primary transaction of createDoubleEntry, lines 403-412:
type from the sign of amount, net amount defaulted, fx rate defaulted,
amountInHostCurrency rounded to an integer when defined. -/
def primaryEntry (t : TxIntent) : LedgerTx :=
  { type := if t.amount > 0 then TxType.CREDIT else TxType.DEBIT
    amount := t.amount
    currency := t.currency
    hostCurrency := t.hostCurrency
    FromCollectiveId := t.FromCollectiveId
    CollectiveId := t.CollectiveId
    HostCollectiveId := t.HostCollectiveId
    hostCurrencyFxRate := effectiveHostFxRate t
    amountInHostCurrency := t.amountInHostCurrency.map (fun a => (jsRound a : Rat))
    netAmountInCollectiveCurrency := effectiveNet t
    hostFeeInHostCurrency := t.hostFeeInHostCurrency
    platformFeeInHostCurrency := t.platformFeeInHostCurrency
    paymentProcessorFeeInHostCurrency := t.paymentProcessorFeeInHostCurrency
    dataOppositeFxRate := none }

/-- The opposite transaction of createDoubleEntry, lines 417-448.
oppositeFx stands for the value returned by getFxRate on the primary and
fromCollective currencies (only consulted on the active branch). -/
def oppositeEntry (t : TxIntent) (fromCollective : Collective) (oppositeFx : Rat) : LedgerTx :=
  let base := { primaryEntry t with
    type := if -t.amount > 0 then TxType.CREDIT else TxType.DEBIT
    FromCollectiveId := t.CollectiveId
    CollectiveId := t.FromCollectiveId
    amountInHostCurrency := some (jsRound (-(effectiveNet t) * effectiveHostFxRate t) : Rat) }
  if fromCollective.isActive = false then
    { base with
      HostCollectiveId := none
      amount := -(effectiveNet t)
      netAmountInCollectiveCurrency := -t.amount }
  else
    { base with
      HostCollectiveId := fromCollective.HostCollectiveId
      currency := fromCollective.currency
      amount := -((jsRound (effectiveNet t * oppositeFx) : Rat))
      netAmountInCollectiveCurrency := -((jsRound (t.amount * oppositeFx) : Rat))
      dataOppositeFxRate := some oppositeFx }

/-- Result of createDoubleEntry: the two entries, the persistence order
(lines 452-464: negative primary amount puts the primary first, otherwise
the opposite goes first), and the returned entry (results at the saved
index, lines 455-465, which is always the primary). -/
structure DoubleEntry where
  primary : LedgerTx
  opposite : LedgerTx
  createdFirst : LedgerTx
  createdSecond : LedgerTx
  returned : LedgerTx
deriving DecidableEq, Repr

/-- Transaction.createDoubleEntry, lines 403-466. The fromCollective row
(found by FromCollectiveId) and the getFxRate result are parameters. -/
def createDoubleEntry (t : TxIntent) (fromCollective : Collective) (oppositeFx : Rat) : DoubleEntry :=
  let p := primaryEntry t
  let o := oppositeEntry t fromCollective oppositeFx
  if t.amount < 0 then
    { primary := p, opposite := o, createdFirst := p, createdSecond := o, returned := p }
  else
    { primary := p, opposite := o, createdFirst := o, createdSecond := p, returned := p }

/-- Modelled from the spec: FEES_ON_TOP_TRANSACTION_PROPERTIES
(constants/transactions, not under src) designates the platform settlement
account; the concrete id is opaque to every claim. -/
def feesOnTopCollectiveId : Int := 1

/-- Modelled from the spec: the host of the platform settlement account in
FEES_ON_TOP_TRANSACTION_PROPERTIES (constants/transactions, not under src). -/
def feesOnTopHostCollectiveId : Int := 8686

/-- Error raised by createFeesOnTopTransaction line 470 (the source throws
a plain Error with the message that the transaction does not have fees on
top; the spec taxonomy calls this failure kind InvalidState). -/
inductive FeesError where
  | notFeesOnTop
deriving DecidableEq, Repr

/-- Outcome of createFeesOnTopTransaction: the donation payload that was
routed through createDoubleEntry (none when no donation was created), and
the value the function returns (none models returning undefined). -/
structure FeesOnTopOutcome where
  donationCreated : Option TxIntent
  returned : Option TxIntent
deriving DecidableEq, Repr

/-- Transaction.createFeesOnTopTransaction, lines 468-516.
platformCurrencyFxRate and hostToPlatformFxRate stand for the two getFxRate
results (transaction currency to USD, host currency to USD). The donation
payload keeps the fields of the input transaction that neither the platform
properties nor the computed layer override (defaultsDeep precedence).
Note: the rate on line 475 divides by amountInHostCurrency; when that field
is undefined JS produces NaN, outside this rational model, so theorems only
quantify over payloads where the division is meaningful or unused. -/
def createFeesOnTopTransaction (transaction : TxIntent)
    (platformCurrencyFxRate hostToPlatformFxRate : Rat) :
    Except FeesError FeesOnTopOutcome :=
  if transaction.dataIsFeesOnTop = false then
    Except.error FeesError.notFeesOnTop
  else if transaction.platformFeeInHostCurrency = 0 then
    Except.ok { donationCreated := none, returned := none }
  else
    let platformFeeToDonationRate :=
      |transaction.platformFeeInHostCurrency / transaction.amountInHostCurrency.getD 0|
    let attributedProcessorFee :=
      toNegative (jsRound (transaction.paymentProcessorFeeInHostCurrency * platformFeeToDonationRate) : Rat)
    let donationTransaction : TxIntent :=
      { transaction with
        CollectiveId := feesOnTopCollectiveId
        HostCollectiveId := some feesOnTopHostCollectiveId
        currency := "USD"
        hostCurrency := "USD"
        amount := (jsRound (|transaction.platformFeeInHostCurrency| * platformCurrencyFxRate) : Rat)
        amountInHostCurrency :=
          some (jsRound (|transaction.platformFeeInHostCurrency| * platformCurrencyFxRate) : Rat)
        platformFeeInHostCurrency := 0
        hostFeeInHostCurrency := 0
        paymentProcessorFeeInHostCurrency :=
          (jsRound (attributedProcessorFee * platformCurrencyFxRate) : Rat)
        netAmountInCollectiveCurrency :=
          some (jsRound ((|transaction.platformFeeInHostCurrency| + attributedProcessorFee) *
            platformCurrencyFxRate) : Rat)
        hostCurrencyFxRate := some 1
        dataHostToPlatformFxRate := some hostToPlatformFxRate }
    let mutated : TxIntent :=
      { transaction with
        paymentProcessorFeeInHostCurrency :=
          transaction.paymentProcessorFeeInHostCurrency - attributedProcessorFee
        amountInHostCurrency :=
          some (transaction.amountInHostCurrency.getD 0 + transaction.platformFeeInHostCurrency)
        amount := transaction.amount + transaction.platformFeeInHostCurrency / effectiveHostFxRate transaction
        platformFeeInHostCurrency := 0 }
    Except.ok { donationCreated := some donationTransaction, returned := some mutated }

/-! Expense workflow (graphql/v1 expense mutations, part_001). -/

/-- Expense status constants (constants/expense_status, referenced by the
workflow code; the enumeration is the one the code reads and writes). -/
inductive ExpenseStatus where
  | PENDING
  | APPROVED
  | REJECTED
  | PAID
  | PROCESSING
deriving DecidableEq, Repr

/-- Expense types relevant to item validation (constants/expense_type). -/
inductive ExpenseType where
  | RECEIPT
  | INVOICE
deriving DecidableEq, Repr

/-- Legacy string payout method values read by payExpense. -/
inductive LegacyPayoutMethod where
  | paypal
  | donation
  | manual
  | other
deriving DecidableEq, Repr

/-- PayoutMethod.type values (models/PayoutMethod). -/
inductive PayoutMethodType where
  | OTHER
  | PAYPAL
  | BANK_ACCOUNT
  | ACCOUNT_BALANCE
  | CREDIT_CARD
deriving DecidableEq, Repr

/-- The fields of an Expense row read by the workflow functions. -/
structure Expense where
  id : Int := 0
  status : ExpenseStatus := ExpenseStatus.PENDING
  amount : Int := 0
  legacyPayoutMethod : Option LegacyPayoutMethod := none
deriving DecidableEq, Repr

/-- The fields of the acting user the workflow reads: the id and the result
of canUseFeature(remoteUser, FEATURE.EXPENSES). -/
structure User where
  id : Int := 0
  featureExpensesAllowed : Bool := true
deriving DecidableEq, Repr

/-- Error message payloads. Each constructor stands for one message
template of the source; constructors carry exactly the monetary values the
template interpolates (currency formatting aside). -/
inductive Msg where
  | loginToUpdateStatus
  | loginToPay
  | loginToUnpay
  | expenseNotFound
  | noExpenseFound
  | cannotUpdateProcessing
  | noPermissionApproveExpense
  | noPermissionToPay
  | noPermissionUnpaid
  | cantApproveAlreadyPaid
  | cantRejectAlreadyPaid
  | mustBeApprovedBeforePaid
  | alreadyPaid
  | beingProcessed
  | needsApproval (current : ExpenseStatus)
  | inKindNotSupported
  | notEnoughFunds (balance amount : Int)
  | notEnoughForFees (balance amount fee : Int) (method : Option PayoutMethodType)
  | hostNotConnectedTransferwise
  | transferwisePayoutsLimitReached
  | transferwiseProviderFailed
  | noPaypalLinked
  | paypalPreapprovalExceeded
  | paypalProviderFailed
  | payeeHasNoHost
  | payeeOnDifferentHost
  | notPaidYet
  | atLeastOneItem
  | tooManyItems
  | sumMismatch (expenseTotal itemsTotal : Int)
  | sumNotAboveZero
  | missingFiles
deriving DecidableEq, Repr

/-- The monetary values a message template interpolates into its text:
notEnoughFunds prints the current balance and the expense amount,
notEnoughForFees prints balance, amount and the estimated fee, sumMismatch
prints the expense total and the item total. No template prints a computed
shortfall difference. -/
def reportedAmounts : Msg → List Int
  | Msg.notEnoughFunds balance amount => [balance, amount]
  | Msg.notEnoughForFees balance amount fee _ => [balance, amount, fee]
  | Msg.sumMismatch expenseTotal itemsTotal => [expenseTotal, itemsTotal]
  | _ => []

/-- The error classes thrown by the workflow code (graphql/errors plus the
plain Error constructor, here genericError). -/
inductive ApiError where
  | unauthorized (m : Msg)
  | notFound (m : Msg)
  | validationFailed (m : Msg)
  | featureNotAllowedForUser
  | badRequest (m : Msg)
  | genericError (m : Msg)
deriving DecidableEq, Repr

/-- An expense item as read by checkExpenseItems: its amount and the
(optional, possibly empty hence falsy) file url. A missing file is url =
none. -/
structure ExpenseItem where
  amount : Int
  url : Option String := none
deriving DecidableEq, Repr

/-- The expense fields checkExpenseItems reads. -/
structure ExpenseData where
  amount : Int
  type : ExpenseType := ExpenseType.INVOICE
deriving DecidableEq, Repr

/-- getTotalAmountFromItems, lines 88-96 of the expense module. -/
def getTotalAmountFromItems (items : List ExpenseItem) : Int :=
  items.foldl (fun total item => total + item.amount) 0

/-- checkExpenseItems, lines 99-124: item count bounds, item sum equal to
the expense amount, nonzero sum, and files present for receipts. -/
def checkExpenseItems (expenseData : ExpenseData) (items : List ExpenseItem) :
    Except ApiError Unit :=
  if items.length = 0 then
    Except.error (ApiError.validationFailed Msg.atLeastOneItem)
  else if items.length > 100 then
    Except.error (ApiError.validationFailed Msg.tooManyItems)
  else
    let sumItems := getTotalAmountFromItems items
    if sumItems ≠ expenseData.amount then
      Except.error (ApiError.validationFailed (Msg.sumMismatch expenseData.amount sumItems))
    else if sumItems = 0 then
      Except.error (ApiError.validationFailed Msg.sumNotAboveZero)
    else if expenseData.type = ExpenseType.RECEIPT ∧ items.any (fun a => a.url = none) then
      Except.error (ApiError.validationFailed Msg.missingFiles)
    else
      Except.ok ()

/-- A ledger posting performed by the payout path: one createTransactions
call with the fee triple (in host currency) it passes along. -/
inductive LedgerAction where
  | createTransactions (paymentProcessorFeeInHostCurrency hostFeeInHostCurrency platformFeeInHostCurrency : Int)
deriving DecidableEq, Repr

/-- A write performed by markExpenseAsUnpaid: the refund transaction (with
the refunded processor fee) and the refund association. -/
inductive RefundAction where
  | createRefund (paymentProcessorFeeInHostCurrency : Int)
  | associateRefund
deriving DecidableEq, Repr

/-- A write performed by updateExpenseStatus. -/
inductive StatusWrite where
  | updateStatus (status : ExpenseStatus)
deriving DecidableEq, Repr

/-- Environment of updateExpenseStatus: the request user, the expense row
found by id, and the canUpdateExpenseStatus permission result. -/
structure UpdateStatusEnv where
  remoteUser : Option User := some {}
  expense : Option Expense := some {}
  canUpdateExpenseStatus : Bool := true
deriving DecidableEq, Repr

/-- updateExpenseStatus, lines 26-85. The requested status arrives already
within the status enumeration (line 34 validates membership; an invalid
string fails there and is outside this model). Returns the writes performed
and the resulting status (line 51 returns the unchanged expense when the
status is already the requested one). -/
def updateExpenseStatus (env : UpdateStatusEnv) (status : ExpenseStatus) :
    List StatusWrite × Except ApiError ExpenseStatus :=
  match env.remoteUser with
  | none => ([], Except.error (ApiError.unauthorized Msg.loginToUpdateStatus))
  | some remoteUser =>
    if remoteUser.featureExpensesAllowed = false then
      ([], Except.error ApiError.featureNotAllowedForUser)
    else
      match env.expense with
      | none => ([], Except.error (ApiError.unauthorized Msg.expenseNotFound))
      | some expense =>
        if expense.status = ExpenseStatus.PROCESSING then
          ([], Except.error (ApiError.unauthorized Msg.cannotUpdateProcessing))
        else if env.canUpdateExpenseStatus = false then
          ([], Except.error (ApiError.unauthorized Msg.noPermissionApproveExpense))
        else if expense.status = status then
          ([], Except.ok expense.status)
        else if status = ExpenseStatus.APPROVED ∧ expense.status = ExpenseStatus.PAID then
          ([], Except.error (ApiError.unauthorized Msg.cantApproveAlreadyPaid))
        else if status = ExpenseStatus.REJECTED ∧ expense.status = ExpenseStatus.PAID then
          ([], Except.error (ApiError.unauthorized Msg.cantRejectAlreadyPaid))
        else if status = ExpenseStatus.PAID ∧ expense.status ≠ ExpenseStatus.APPROVED then
          ([], Except.error (ApiError.unauthorized Msg.mustBeApprovedBeforePaid))
        else
          ([StatusWrite.updateStatus status], Except.ok status)

/-- Environment of payExpense: the request user, the expense row, the
canPayExpense permission result, and the values obtained from external
collaborators (host, balance, FX rate, payout method resolution, provider
quotes and call outcomes). -/
structure PayExpenseEnv where
  remoteUser : Option User := some {}
  expense : Option Expense := some {}
  canPayExpense : Bool := true
  hostId : Int := 100
  balance : Int := 0
  fxrate : Rat := 1
  payoutMethodType : Option PayoutMethodType := none
  payoutMethodPaypalEmail : String := ""
  hostPaypalPMName : Option String := none
  paypalPayOk : Bool := true
  paypalFailExceedsPreapproval : Bool := false
  paypalFeesInCollectiveCurrency : Int := 0
  twConnected : Bool := false
  twQuoteFeeInCollectiveCurrency : Int := 0
  twPayoutsLimitOk : Bool := true
  twPayOk : Bool := true
  payeeHostId : Option Int := none
deriving DecidableEq, Repr

/-- The mutation arguments of payExpense other than the expense id: the
forceManual flag and the caller-supplied fees in collective currency. -/
structure PayExpenseArgs where
  forceManual : Bool := false
  paymentProcessorFeeInCollectiveCurrency : Option Int := none
  hostFeeInCollectiveCurrency : Option Int := none
  platformFeeInCollectiveCurrency : Option Int := none
deriving DecidableEq, Repr

/-- Lines 631-657 of payExpense: the payment processor fee in collective
currency, either quoted from Transferwise (failing when the host has no
connected account), quoted from PayPal, or taken from the arguments with 0
as the fallback. -/
def resolveProcessorFee (env : PayExpenseEnv) (args : PayExpenseArgs) : Except ApiError Int :=
  if env.payoutMethodType = some PayoutMethodType.BANK_ACCOUNT ∧ args.forceManual = false then
    if env.twConnected = false then
      Except.error (ApiError.genericError Msg.hostNotConnectedTransferwise)
    else
      Except.ok env.twQuoteFeeInCollectiveCurrency
  else if env.payoutMethodType = some PayoutMethodType.PAYPAL ∧ args.forceManual = false then
    Except.ok env.paypalFeesInCollectiveCurrency
  else
    Except.ok (args.paymentProcessorFeeInCollectiveCurrency.getD 0)

/-- Lines 674-722 of payExpense: routing by payout method type, the ledger
postings each branch performs, and the final status (PROCESSING for the
Transferwise path, line 703; PAID through markExpenseAsPaid otherwise). -/
def executePayment (env : PayExpenseEnv) (args : PayExpenseArgs) (expense : Expense)
    (ppHC hostHC platHC : Int) :
    List LedgerAction × Except ApiError ExpenseStatus :=
  if env.payoutMethodType = some PayoutMethodType.PAYPAL then
    match env.hostPaypalPMName with
    | some pmName =>
      if env.payoutMethodPaypalEmail = pmName then
        ([LedgerAction.createTransactions 0 hostHC platHC], Except.ok ExpenseStatus.PAID)
      else if args.forceManual then
        ([LedgerAction.createTransactions ppHC hostHC platHC], Except.ok ExpenseStatus.PAID)
      else if env.paypalPayOk then
        ([LedgerAction.createTransactions ppHC hostHC platHC], Except.ok ExpenseStatus.PAID)
      else if env.paypalFailExceedsPreapproval then
        ([], Except.error (ApiError.validationFailed Msg.paypalPreapprovalExceeded))
      else
        ([], Except.error (ApiError.badRequest Msg.paypalProviderFailed))
    | none =>
      if args.forceManual then
        ([LedgerAction.createTransactions ppHC hostHC platHC], Except.ok ExpenseStatus.PAID)
      else
        ([], Except.error (ApiError.genericError Msg.noPaypalLinked))
  else if env.payoutMethodType = some PayoutMethodType.BANK_ACCOUNT then
    if args.forceManual then
      ([LedgerAction.createTransactions 0 hostHC platHC], Except.ok ExpenseStatus.PAID)
    else if env.twConnected = false then
      ([], Except.error (ApiError.genericError Msg.hostNotConnectedTransferwise))
    else if env.twPayoutsLimitOk = false then
      ([], Except.error (ApiError.genericError Msg.transferwisePayoutsLimitReached))
    else if env.twPayOk = false then
      ([], Except.error (ApiError.genericError Msg.transferwiseProviderFailed))
    else
      ([LedgerAction.createTransactions ppHC hostHC platHC], Except.ok ExpenseStatus.PROCESSING)
  else if env.payoutMethodType = some PayoutMethodType.ACCOUNT_BALANCE then
    match env.payeeHostId with
    | none => ([], Except.error (ApiError.genericError Msg.payeeHasNoHost))
    | some payeeHost =>
      if env.hostId ≠ payeeHost then
        ([], Except.error (ApiError.genericError Msg.payeeOnDifferentHost))
      else
        ([LedgerAction.createTransactions ppHC hostHC platHC], Except.ok ExpenseStatus.PAID)
  else if expense.legacyPayoutMethod = some LegacyPayoutMethod.manual ∨
      expense.legacyPayoutMethod = some LegacyPayoutMethod.other then
    ([LedgerAction.createTransactions ppHC hostHC platHC], Except.ok ExpenseStatus.PAID)
  else
    ([], Except.ok ExpenseStatus.PAID)

/-- payExpense, lines 577-723: authentication and feature gates, the status
guards (paid, processing, not approved), the permission check, the in-kind
guard, the first balance check, processor fee resolution, the fee-inclusive
balance check, then payment routing. Returns the ledger postings and either
an error or the final expense status. -/
def payExpense (env : PayExpenseEnv) (args : PayExpenseArgs) :
    List LedgerAction × Except ApiError ExpenseStatus :=
  match env.remoteUser with
  | none => ([], Except.error (ApiError.unauthorized Msg.loginToPay))
  | some remoteUser =>
    if remoteUser.featureExpensesAllowed = false then
      ([], Except.error ApiError.featureNotAllowedForUser)
    else
      match env.expense with
      | none => ([], Except.error (ApiError.unauthorized Msg.expenseNotFound))
      | some expense =>
        if expense.status = ExpenseStatus.PAID then
          ([], Except.error (ApiError.unauthorized Msg.alreadyPaid))
        else if expense.status = ExpenseStatus.PROCESSING then
          ([], Except.error (ApiError.unauthorized Msg.beingProcessed))
        else if expense.status ≠ ExpenseStatus.APPROVED then
          ([], Except.error (ApiError.unauthorized (Msg.needsApproval expense.status)))
        else if env.canPayExpense = false then
          ([], Except.error (ApiError.unauthorized Msg.noPermissionToPay))
        else if expense.legacyPayoutMethod = some LegacyPayoutMethod.donation then
          ([], Except.error (ApiError.genericError Msg.inKindNotSupported))
        else if expense.amount > env.balance then
          ([], Except.error (ApiError.unauthorized (Msg.notEnoughFunds env.balance expense.amount)))
        else
          match resolveProcessorFee env args with
          | Except.error e => ([], Except.error e)
          | Except.ok ppCC =>
            let ppHC := jsRound (env.fxrate * (ppCC : Rat))
            let hostHC := jsRound (env.fxrate * ((args.hostFeeInCollectiveCurrency.getD 0 : Int) : Rat))
            let platHC := jsRound (env.fxrate * ((args.platformFeeInCollectiveCurrency.getD 0 : Int) : Rat))
            if expense.amount + ppCC > env.balance then
              ([], Except.error (ApiError.genericError
                (Msg.notEnoughForFees env.balance expense.amount ppCC env.payoutMethodType)))
            else
              executePayment env args expense ppHC hostHC platHC

/-- Environment of markExpenseAsUnpaid: the request user, the expense row,
the canMarkAsUnpaid permission result, and the processor fee of the ledger
transaction found for the expense. -/
structure MarkUnpaidEnv where
  remoteUser : Option User := some {}
  expense : Option Expense := some {}
  canMarkAsUnpaid : Bool := true
  transactionProcessorFeeInHostCurrency : Int := 0
deriving DecidableEq, Repr

/-- markExpenseAsUnpaid, lines 725-770: authentication and feature gates,
lookup, permission, then the paid-status guard; on success the refund
transaction is created (with the processor fee refunded only when
requested), associated, and the status reset to APPROVED. -/
def markExpenseAsUnpaid (env : MarkUnpaidEnv) (processorFeeRefunded : Bool) :
    List RefundAction × Except ApiError ExpenseStatus :=
  match env.remoteUser with
  | none => ([], Except.error (ApiError.unauthorized Msg.loginToUnpay))
  | some remoteUser =>
    if remoteUser.featureExpensesAllowed = false then
      ([], Except.error ApiError.featureNotAllowedForUser)
    else
      match env.expense with
      | none => ([], Except.error (ApiError.notFound Msg.noExpenseFound))
      | some expense =>
        if env.canMarkAsUnpaid = false then
          ([], Except.error (ApiError.unauthorized Msg.noPermissionUnpaid))
        else if expense.status ≠ ExpenseStatus.PAID then
          ([], Except.error (ApiError.unauthorized Msg.notPaidYet))
        else
          let fee := if processorFeeRefunded then env.transactionProcessorFeeInHostCurrency else 0
          ([RefundAction.createRefund fee, RefundAction.associateRefund],
            Except.ok ExpenseStatus.APPROVED)

/-! Concrete inputs used by counterexamples and witnesses. -/

/-- A non-active fromCollective (no own host). -/
def inactiveColl : Collective :=
  { isActive := false, currency := "USD", HostCollectiveId := none }

/-- An active fromCollective in USD hosted by collective 11. -/
def activeUsdColl : Collective :=
  { isActive := true, currency := "USD", HostCollectiveId := some 11 }

/-- Intent with a positive amount but a negative explicit net amount: the
sign of the net amount disagrees with the sign of the amount. -/
def c1cxIntent : TxIntent :=
  { amount := 1000, currency := "USD", FromCollectiveId := 2, CollectiveId := 3,
    netAmountInCollectiveCurrency := some (-50) }

/-- The literal intent of the C2 scenario: amount -1000 USD, processor fee
-100, no netAmountInAccountCurrency field, hostCurrencyFxRate 1. -/
def c2Intent : TxIntent :=
  { amount := -1000, currency := "USD", FromCollectiveId := 21, CollectiveId := 31,
    hostCurrencyFxRate := some 1,
    paymentProcessorFeeInHostCurrency := -100 }

/-- The C2 intent extended with netAmountInAccountCurrency = -1100
(amount plus the processor fee), as the claimed outputs require. -/
def c2IntentWithNet : TxIntent :=
  { c2Intent with netAmountInCollectiveCurrency := some (-1100) }

/-- A plain expense-payout intent on a non-active payee, for witnesses. -/
def w3Intent : TxIntent :=
  { amount := -700, currency := "USD", FromCollectiveId := 5, CollectiveId := 6,
    netAmountInCollectiveCurrency := some (-730),
    paymentProcessorFeeInHostCurrency := -30 }

/-- Flagged fees-on-top entry with a nonzero platform fee whose host fx
rate is 2: main amount is in collective currency, fees in host currency. -/
def c5cxIntent : TxIntent :=
  { amount := 1000, currency := "EUR", hostCurrency := "USD",
    amountInHostCurrency := some 2000, hostCurrencyFxRate := some 2,
    platformFeeInHostCurrency := -100, paymentProcessorFeeInHostCurrency := 0,
    dataIsFeesOnTop := true }

/-- Flagged fees-on-top entry with host fx rate 1, for the amended
conservation statement. -/
def c5wIntent : TxIntent :=
  { amount := 2000, amountInHostCurrency := some 2000, hostCurrencyFxRate := some 1,
    platformFeeInHostCurrency := -100, dataIsFeesOnTop := true }

/-- Flagged fees-on-top entry whose platform fee is zero. -/
def c6cxIntent : TxIntent :=
  { amount := 500, dataIsFeesOnTop := true, platformFeeInHostCurrency := 0 }

/-- Entry not flagged as fees-on-top. -/
def c6wUnflagged : TxIntent :=
  { amount := 300, platformFeeInHostCurrency := -50 }

/-- The amount of the donation payload created by the splitter, when one
was created. -/
def donationAmountOf (r : Except FeesError FeesOnTopOutcome) : Option Rat :=
  match r with
  | Except.ok { donationCreated := some d, returned := _ } => some d.amount
  | _ => none

/-- The amount of the mutated main entry returned by the splitter, when one
was returned. -/
def mutatedAmountOf (r : Except FeesError FeesOnTopOutcome) : Option Rat :=
  match r with
  | Except.ok { donationCreated := _, returned := some m } => some m.amount
  | _ => none

/-- An expense already paid. -/
def c7PaidExpense : Expense := { id := 1, status := ExpenseStatus.PAID, amount := 5000 }

/-- payExpense environment whose expense is already paid. -/
def c7PayEnv : PayExpenseEnv := { expense := some c7PaidExpense }

/-- A pending (never paid) expense. -/
def c7PendingExpense : Expense := { id := 2, status := ExpenseStatus.PENDING, amount := 5000 }

/-- markExpenseAsUnpaid environment whose expense is still pending. -/
def c7UnpaidEnv : MarkUnpaidEnv := { expense := some c7PendingExpense }

/-- An approved expense of 10000 cents. -/
def c8ApprovedExpense : Expense := { id := 3, status := ExpenseStatus.APPROVED, amount := 10000 }

/-- payExpense environment for the C8 scenario: amount 10000, balance 9999. -/
def c8Env : PayExpenseEnv := { expense := some c8ApprovedExpense, balance := 9999 }

/-- The expense of the C9 scenario: total 5000 cents, invoice type. -/
def c9ExpenseData : ExpenseData := { amount := 5000 }

/-- Item list matching the expense total. -/
def c9ItemsOk : List ExpenseItem := [{ amount := 2000 }, { amount := 3000 }]

/-- Item list summing to 4500 instead of 5000. -/
def c9ItemsBad : List ExpenseItem := [{ amount := 2000 }, { amount := 2500 }]

/-- An expense currently being processed. -/
def c10Expense : Expense := { id := 4, status := ExpenseStatus.PROCESSING }

/-- updateExpenseStatus environment whose expense is being processed. -/
def c10Env : UpdateStatusEnv := { expense := some c10Expense }

/-! Helper lemmas on createDoubleEntry. -/

theorem createDoubleEntry_primary (t : TxIntent) (c : Collective) (fx : Rat) :
    (createDoubleEntry t c fx).primary = primaryEntry t := by
  unfold createDoubleEntry
  split <;> rfl

theorem createDoubleEntry_opposite (t : TxIntent) (c : Collective) (fx : Rat) :
    (createDoubleEntry t c fx).opposite = oppositeEntry t c fx := by
  unfold createDoubleEntry
  split <;> rfl

theorem oppositeEntry_type (t : TxIntent) (c : Collective) (fx : Rat) :
    (oppositeEntry t c fx).type = if -t.amount > 0 then TxType.CREDIT else TxType.DEBIT := by
  cases hc : c.isActive <;> simp [oppositeEntry, hc]

theorem oppositeEntry_inactive_amount (t : TxIntent) (c : Collective) (fx : Rat)
    (h : c.isActive = false) :
    (oppositeEntry t c fx).amount = -(effectiveNet t) := by
  simp [oppositeEntry, h]

theorem createDoubleEntry_createdFirst (t : TxIntent) (c : Collective) (fx : Rat) :
    (createDoubleEntry t c fx).createdFirst =
      if t.amount < 0 then primaryEntry t else oppositeEntry t c fx := by
  unfold createDoubleEntry
  split <;> simp_all

theorem createDoubleEntry_createdSecond (t : TxIntent) (c : Collective) (fx : Rat) :
    (createDoubleEntry t c fx).createdSecond =
      if t.amount < 0 then oppositeEntry t c fx else primaryEntry t := by
  unfold createDoubleEntry
  split <;> simp_all

theorem createDoubleEntry_returned (t : TxIntent) (c : Collective) (fx : Rat) :
    (createDoubleEntry t c fx).returned = primaryEntry t := by
  unfold createDoubleEntry
  split <;> rfl

/-! Claim theorems. -/

/-- C1 counterexample: for the intent with amount 1000 and an explicit
netAmountInAccountCurrency of -50 on a non-active fromAccount, the opposite
entry built by createDoubleEntry has direction DEBIT (derived from the
primary amount, line 419) while its own amount is 50, strictly positive: the
claimed invariant direction = CREDIT iff amount is positive fails on it. -/
theorem direction_invariant_cx :
    (createDoubleEntry c1cxIntent inactiveColl 1).opposite.type = TxType.DEBIT ∧
    (createDoubleEntry c1cxIntent inactiveColl 1).opposite.amount = 50 ∧
    ¬ ((createDoubleEntry c1cxIntent inactiveColl 1).opposite.type = TxType.CREDIT ↔
        (createDoubleEntry c1cxIntent inactiveColl 1).opposite.amount > 0) := by
  norm_num [createDoubleEntry_opposite, oppositeEntry, primaryEntry, c1cxIntent,
    inactiveColl, effectiveNet, effectiveHostFxRate, jsOrDefault]
  decide

/-- C1 (amended): the primary entry always satisfies direction = CREDIT iff
amount is strictly positive. The opposite entry direction is CREDIT exactly
when the primary amount is strictly negative; it satisfies direction =
CREDIT iff its own amount is strictly positive whenever the fromAccount is
not active and the effective net amount of the intent is strictly negative
exactly when its amount is. -/
theorem direction_invariant_amended (t : TxIntent) (c : Collective) (fx : Rat) :
    ((createDoubleEntry t c fx).primary.type = TxType.CREDIT ↔
      (createDoubleEntry t c fx).primary.amount > 0) ∧
    ((createDoubleEntry t c fx).opposite.type = TxType.CREDIT ↔
      (createDoubleEntry t c fx).primary.amount < 0) ∧
    (c.isActive = false → (effectiveNet t < 0 ↔ t.amount < 0) →
      ((createDoubleEntry t c fx).opposite.type = TxType.CREDIT ↔
        (createDoubleEntry t c fx).opposite.amount > 0)) := by
  rw [createDoubleEntry_primary, createDoubleEntry_opposite]
  refine ⟨?_, ?_, ?_⟩
  · by_cases h : t.amount > 0 <;> simp [primaryEntry, h]
  · rw [oppositeEntry_type]
    by_cases h : t.amount < 0 <;> simp [primaryEntry, h, neg_pos]
  · intro hc hiff
    rw [oppositeEntry_type, oppositeEntry_inactive_amount t c fx hc]
    by_cases h : t.amount < 0
    · have hn : effectiveNet t < 0 := hiff.mpr h
      simp [neg_pos, h, hn]
    · have hn : ¬ effectiveNet t < 0 := fun hh => h (hiff.mp hh)
      simp [neg_pos, h, hn]

/-- C1 witness for the amended opposite-entry invariant, at a concrete
expense-like intent on a non-active payee. -/
theorem direction_invariant_amended_witness :
    (createDoubleEntry w3Intent inactiveColl 1).opposite.type = TxType.CREDIT ↔
      (createDoubleEntry w3Intent inactiveColl 1).opposite.amount > 0 :=
  (direction_invariant_amended w3Intent inactiveColl 1).2.2 rfl
    (by norm_num [effectiveNet, w3Intent, jsOrDefault])

/-- C2 counterexample: on the literal scenario intent, which carries no
netAmountInAccountCurrency field, createDoubleEntry defaults the net amount
to the amount (line 405); the primary entry net amount is -1000, not the
claimed -1100, and the opposite entry amount is 1000, not the claimed
1100. -/
theorem scenario_double_entry_cx :
    (createDoubleEntry c2Intent activeUsdColl 1).primary.netAmountInCollectiveCurrency = -1000 ∧
    (createDoubleEntry c2Intent activeUsdColl 1).primary.netAmountInCollectiveCurrency ≠ -1100 ∧
    (createDoubleEntry c2Intent activeUsdColl 1).opposite.amount = 1000 ∧
    (createDoubleEntry c2Intent activeUsdColl 1).opposite.amount ≠ 1100 := by
  norm_num [createDoubleEntry_primary, createDoubleEntry_opposite, primaryEntry,
    oppositeEntry, c2Intent, activeUsdColl, effectiveNet, effectiveHostFxRate,
    jsOrDefault, jsRound]

/-- C2 (amended): with netAmountInAccountCurrency = -1100 (amount plus the
processor fee) supplied in the intent, the scenario holds exactly: primary
DEBIT with amount -1000 and net -1100, and opposite CREDIT on the ledger of
the fromAccount with amount 1100 and net 1000. -/
theorem scenario_double_entry_amended :
    (createDoubleEntry c2IntentWithNet activeUsdColl 1).primary.type = TxType.DEBIT ∧
    (createDoubleEntry c2IntentWithNet activeUsdColl 1).primary.amount = -1000 ∧
    (createDoubleEntry c2IntentWithNet activeUsdColl 1).primary.netAmountInCollectiveCurrency = -1100 ∧
    (createDoubleEntry c2IntentWithNet activeUsdColl 1).opposite.type = TxType.CREDIT ∧
    (createDoubleEntry c2IntentWithNet activeUsdColl 1).opposite.amount = 1100 ∧
    (createDoubleEntry c2IntentWithNet activeUsdColl 1).opposite.netAmountInCollectiveCurrency = 1000 ∧
    (createDoubleEntry c2IntentWithNet activeUsdColl 1).opposite.CollectiveId =
      c2Intent.FromCollectiveId := by
  norm_num [createDoubleEntry_primary, createDoubleEntry_opposite, primaryEntry,
    oppositeEntry, c2IntentWithNet, c2Intent, activeUsdColl, effectiveNet,
    effectiveHostFxRate, jsOrDefault, jsRound]

/-- C3: for a non-active fromAccount the opposite entry keeps the primary
currency, has no host, and swaps the negated amount and net amount of the
primary (lines 427-433). -/
theorem opposite_inactive_spec (t : TxIntent) (c : Collective) (fx : Rat)
    (h : c.isActive = false) :
    (createDoubleEntry t c fx).opposite.currency = (createDoubleEntry t c fx).primary.currency ∧
    (createDoubleEntry t c fx).opposite.HostCollectiveId = none ∧
    (createDoubleEntry t c fx).opposite.amount =
      -(createDoubleEntry t c fx).primary.netAmountInCollectiveCurrency ∧
    (createDoubleEntry t c fx).opposite.netAmountInCollectiveCurrency =
      -(createDoubleEntry t c fx).primary.amount := by
  rw [createDoubleEntry_primary, createDoubleEntry_opposite]
  simp [oppositeEntry, primaryEntry, h]

/-- C3 witness at a concrete expense intent on a non-active payee. -/
theorem opposite_inactive_spec_witness :
    (createDoubleEntry w3Intent inactiveColl 1).opposite.currency =
      (createDoubleEntry w3Intent inactiveColl 1).primary.currency ∧
    (createDoubleEntry w3Intent inactiveColl 1).opposite.HostCollectiveId = none ∧
    (createDoubleEntry w3Intent inactiveColl 1).opposite.amount =
      -(createDoubleEntry w3Intent inactiveColl 1).primary.netAmountInCollectiveCurrency ∧
    (createDoubleEntry w3Intent inactiveColl 1).opposite.netAmountInCollectiveCurrency =
      -(createDoubleEntry w3Intent inactiveColl 1).primary.amount :=
  opposite_inactive_spec w3Intent inactiveColl 1 rfl

/-- C4: the persistence order of createDoubleEntry never writes an entry
with strictly positive amount before one with strictly negative amount
(lines 452-464 order on the sign of the primary amount), and the returned
entry is always the primary one. -/
theorem debit_leg_created_first (t : TxIntent) (c : Collective) (fx : Rat) :
    (¬ ((createDoubleEntry t c fx).createdFirst.amount > 0 ∧
        (createDoubleEntry t c fx).createdSecond.amount < 0)) ∧
    (createDoubleEntry t c fx).returned = (createDoubleEntry t c fx).primary := by
  rw [createDoubleEntry_createdFirst, createDoubleEntry_createdSecond,
    createDoubleEntry_returned, createDoubleEntry_primary]
  refine ⟨?_, rfl⟩
  by_cases h : t.amount < 0
  · simp only [if_pos h]
    rintro ⟨h1, -⟩
    have hp : (primaryEntry t).amount = t.amount := rfl
    rw [hp] at h1
    exact absurd h1 (not_lt.mpr h.le)
  · simp only [if_neg h]
    rintro ⟨-, h2⟩
    have hp : (primaryEntry t).amount = t.amount := rfl
    rw [hp] at h2
    exact h h2

/-- C5 counterexample: for the flagged entry with amount 1000, platform fee
-100 and hostCurrencyFxRate 2, the splitter puts amount 100 on the donation
(platform currency rate 1) and mutates the main amount to 950 = 1000 +
(-100)/2 (line 511); the payer-side total 950 + 100/1 = 1050 differs from
the original amount 1000. -/
theorem feesOnTop_conservation_cx :
    donationAmountOf (createFeesOnTopTransaction c5cxIntent 1 1) = some 100 ∧
    mutatedAmountOf (createFeesOnTopTransaction c5cxIntent 1 1) = some 950 ∧
    c5cxIntent.amount = 1000 ∧
    (950 : Rat) + 100 / 1 ≠ 1000 := by
  norm_num [donationAmountOf, mutatedAmountOf, createFeesOnTopTransaction, c5cxIntent,
    toNegative, jsRound, effectiveHostFxRate, jsOrDefault]

/-- C5 (amended): payer-side conservation holds when the entry is flagged,
its platform fee is strictly negative (the storage convention), the host fx
rate is 1 (or unset), and the platform-currency conversion of the fee is
exact: the mutated main amount plus the donation amount converted back into
the original currency equals the original amount. -/
theorem feesOnTop_conservation_amended (t : TxIntent) (pcfx h2p : Rat)
    (hflag : t.dataIsFeesOnTop = true)
    (hpf : t.platformFeeInHostCurrency < 0)
    (hhfx : effectiveHostFxRate t = 1)
    (hexact : ((jsRound (|t.platformFeeInHostCurrency| * pcfx) : Int) : Rat) =
      |t.platformFeeInHostCurrency| * pcfx)
    (hpcfx : pcfx ≠ 0) :
    mutatedAmountOf (createFeesOnTopTransaction t pcfx h2p) =
      some (t.amount + t.platformFeeInHostCurrency) ∧
    donationAmountOf (createFeesOnTopTransaction t pcfx h2p) =
      some (|t.platformFeeInHostCurrency| * pcfx) ∧
    (t.amount + t.platformFeeInHostCurrency) +
      (|t.platformFeeInHostCurrency| * pcfx) / pcfx = t.amount := by
  have hpf0 : t.platformFeeInHostCurrency ≠ 0 := ne_of_lt hpf
  refine ⟨?_, ?_, ?_⟩
  · simp [createFeesOnTopTransaction, hflag, hpf0, mutatedAmountOf, hhfx]
  · simp [createFeesOnTopTransaction, hflag, hpf0, donationAmountOf, hexact]
  · rw [mul_div_cancel_right₀ _ hpcfx, abs_of_neg hpf]
    ring

/-- C5 witness for the amended conservation statement, at platform fee -100
with both fx rates 1. -/
theorem feesOnTop_conservation_amended_witness :
    (c5wIntent.amount + c5wIntent.platformFeeInHostCurrency) +
      (|c5wIntent.platformFeeInHostCurrency| * 1) / 1 = c5wIntent.amount :=
  (feesOnTop_conservation_amended c5wIntent 1 1 rfl
    (by norm_num [c5wIntent])
    (by norm_num [effectiveHostFxRate, c5wIntent, jsOrDefault])
    (by norm_num [jsRound, c5wIntent])
    one_ne_zero).2.2

/-- C6 counterexample: for a flagged entry with zero platform fee, the
splitter returns undefined (line 472), not the input entry: the outcome has
no returned entry. -/
theorem feesOnTop_zero_noop_cx :
    createFeesOnTopTransaction c6cxIntent 1 1 =
      Except.ok { donationCreated := none, returned := none } ∧
    createFeesOnTopTransaction c6cxIntent 1 1 ≠
      Except.ok { donationCreated := none, returned := some c6cxIntent } := by
  constructor
  · simp [createFeesOnTopTransaction, c6cxIntent]
  · simp [createFeesOnTopTransaction, c6cxIntent]

/-- C6 (amended): the splitter fails on every entry not flagged as carrying
an on-top fee, and for a flagged entry with zero platform fee it creates no
donation and mutates nothing, returning undefined rather than the input
entry. -/
theorem feesOnTop_guards_amended (t : TxIntent) (pcfx h2p : Rat) :
    (t.dataIsFeesOnTop = false →
      createFeesOnTopTransaction t pcfx h2p = Except.error FeesError.notFeesOnTop) ∧
    (t.dataIsFeesOnTop = true → t.platformFeeInHostCurrency = 0 →
      createFeesOnTopTransaction t pcfx h2p =
        Except.ok { donationCreated := none, returned := none }) := by
  constructor
  · intro h
    simp [createFeesOnTopTransaction, h]
  · intro h1 h2
    simp [createFeesOnTopTransaction, h1, h2]

/-- C6 witness: both guard behaviours at concrete entries. -/
theorem feesOnTop_guards_amended_witness :
    createFeesOnTopTransaction c6wUnflagged 1 1 = Except.error FeesError.notFeesOnTop ∧
    createFeesOnTopTransaction c6cxIntent 1 1 =
      Except.ok { donationCreated := none, returned := none } :=
  ⟨(feesOnTop_guards_amended c6wUnflagged 1 1).1 rfl,
   (feesOnTop_guards_amended c6cxIntent 1 1).2 rfl rfl⟩

/-- C7: for an authenticated, feature-enabled caller, payExpense on a PAID
expense fails with the already-paid state error (line 597) without writing
any ledger entry, and markExpenseAsUnpaid on a PENDING expense (permission
granted) fails with the not-paid-yet state error (line 750) without any
refund write. The source raises these through its Unauthorized error class;
the spec taxonomy files illegal state transitions under Conflict. -/
theorem paid_pending_state_machine
    (envP : PayExpenseEnv) (args : PayExpenseArgs) (envU : MarkUnpaidEnv) (pfr : Bool)
    (uP uU : User) (eP eU : Expense)
    (h1 : envP.remoteUser = some uP) (h2 : uP.featureExpensesAllowed = true)
    (h3 : envP.expense = some eP) (h4 : eP.status = ExpenseStatus.PAID)
    (h5 : envU.remoteUser = some uU) (h6 : uU.featureExpensesAllowed = true)
    (h7 : envU.expense = some eU) (h8 : envU.canMarkAsUnpaid = true)
    (h9 : eU.status = ExpenseStatus.PENDING) :
    payExpense envP args = ([], Except.error (ApiError.unauthorized Msg.alreadyPaid)) ∧
    markExpenseAsUnpaid envU pfr =
      ([], Except.error (ApiError.unauthorized Msg.notPaidYet)) := by
  constructor
  · simp [payExpense, h1, h2, h3, h4]
  · simp [markExpenseAsUnpaid, h5, h6, h7, h8, h9]

/-- C7 witness at concrete environments. -/
theorem paid_pending_state_machine_witness :
    payExpense c7PayEnv {} = ([], Except.error (ApiError.unauthorized Msg.alreadyPaid)) ∧
    markExpenseAsUnpaid c7UnpaidEnv true =
      ([], Except.error (ApiError.unauthorized Msg.notPaidYet)) :=
  paid_pending_state_machine c7PayEnv {} c7UnpaidEnv true {} {} c7PaidExpense
    c7PendingExpense rfl rfl rfl rfl rfl rfl rfl rfl rfl

/-- C8 counterexample: on the scenario environment (amount 10000, balance
9999) payExpense fails with the first balance error; the message template
(line 619) interpolates the current balance and the expense amount only:
the computed shortfall difference, 1, is not among the amounts reported. -/
theorem insufficient_funds_cx :
    payExpense c8Env {} =
      ([], Except.error (ApiError.unauthorized (Msg.notEnoughFunds 9999 10000))) ∧
    reportedAmounts (Msg.notEnoughFunds 9999 10000) = [9999, 10000] ∧
    ((10000 : Int) - 9999) ∉ reportedAmounts (Msg.notEnoughFunds 9999 10000) := by
  refine ⟨?_, rfl, by decide⟩
  simp [payExpense, c8Env, c8ApprovedExpense]

/-- C8 (amended): for an authenticated, feature-enabled, permitted caller on
an approved, non-donation expense whose balance is below the amount plus the
resolved processor fee, payExpense writes no ledger entry and fails with one
of the two insufficient-funds errors, whose messages report the balance, the
amount and (for the second) the estimated fee. -/
theorem insufficient_funds_amended
    (env : PayExpenseEnv) (args : PayExpenseArgs) (u : User) (e : Expense) (fee : Int)
    (h1 : env.remoteUser = some u) (h2 : u.featureExpensesAllowed = true)
    (h3 : env.expense = some e) (h4 : e.status = ExpenseStatus.APPROVED)
    (h5 : env.canPayExpense = true)
    (h6 : e.legacyPayoutMethod ≠ some LegacyPayoutMethod.donation)
    (h7 : resolveProcessorFee env args = Except.ok fee)
    (h8 : env.balance < e.amount + fee) :
    (payExpense env args).1 = [] ∧
    ((payExpense env args).2 =
        Except.error (ApiError.unauthorized (Msg.notEnoughFunds env.balance e.amount)) ∨
     (payExpense env args).2 =
        Except.error (ApiError.genericError
          (Msg.notEnoughForFees env.balance e.amount fee env.payoutMethodType))) := by
  by_cases hbal : e.amount > env.balance
  · refine ⟨?_, Or.inl ?_⟩ <;> simp [payExpense, h1, h2, h3, h4, h5, h6, hbal]
  · refine ⟨?_, Or.inr ?_⟩ <;> simp [payExpense, h1, h2, h3, h4, h5, h6, hbal, h7, h8]

/-- C8 witness: the scenario environment satisfies all hypotheses of the
amended statement with a resolved fee of 0. -/
theorem insufficient_funds_amended_witness :
    (payExpense c8Env {}).1 = [] ∧
    ((payExpense c8Env {}).2 =
        Except.error (ApiError.unauthorized (Msg.notEnoughFunds 9999 10000)) ∨
     (payExpense c8Env {}).2 =
        Except.error (ApiError.genericError
          (Msg.notEnoughForFees 9999 10000 0 none))) :=
  insufficient_funds_amended c8Env {} {} c8ApprovedExpense 0 rfl rfl rfl rfl rfl
    (by decide) rfl (by decide)

/-- C9: item validation accepts [2000, 3000] against an expense of 5000,
rejects [2000, 2500] with the mismatch error reporting 5000 against 4500,
and in general succeeds on a non-empty item list only when the item sum
equals the expense amount. -/
theorem expense_items_sum_spec :
    checkExpenseItems c9ExpenseData c9ItemsOk = Except.ok () ∧
    checkExpenseItems c9ExpenseData c9ItemsBad =
      Except.error (ApiError.validationFailed (Msg.sumMismatch 5000 4500)) ∧
    (∀ (d : ExpenseData) (items : List ExpenseItem), items ≠ [] →
      checkExpenseItems d items = Except.ok () →
      getTotalAmountFromItems items = d.amount) := by
  refine ⟨by decide, by decide, ?_⟩
  intro d items hne hok
  unfold checkExpenseItems at hok
  by_cases h0 : items.length = 0
  · simp [h0] at hok
  · by_cases h100 : items.length > 100
    · simp [h0, h100] at hok
    · by_cases hsum : getTotalAmountFromItems items = d.amount
      · exact hsum
      · simp [h0, h100, hsum] at hok

/-- C9 witness for the general only-when direction at the accepted list. -/
theorem expense_items_sum_spec_witness :
    getTotalAmountFromItems c9ItemsOk = c9ExpenseData.amount :=
  expense_items_sum_spec.2.2 c9ExpenseData c9ItemsOk (by decide) (by decide)

/-- C10: for an authenticated, feature-enabled caller, updateExpenseStatus
on an expense in PROCESSING fails with the being-processed error (line 46)
for every requested target status, performs no write, and does so
independently of the permission check result (the guard precedes it). -/
theorem processing_status_locked
    (env : UpdateStatusEnv) (s : ExpenseStatus) (u : User) (e : Expense)
    (h1 : env.remoteUser = some u) (h2 : u.featureExpensesAllowed = true)
    (h3 : env.expense = some e) (h4 : e.status = ExpenseStatus.PROCESSING) :
    updateExpenseStatus env s =
      ([], Except.error (ApiError.unauthorized Msg.cannotUpdateProcessing)) ∧
    (∀ b : Bool, updateExpenseStatus { env with canUpdateExpenseStatus := b } s =
      ([], Except.error (ApiError.unauthorized Msg.cannotUpdateProcessing))) := by
  constructor
  · simp [updateExpenseStatus, h1, h2, h3, h4]
  · intro b
    simp [updateExpenseStatus, h1, h2, h3, h4]

/-- C10 witness: requesting PAID on a processing expense. -/
theorem processing_status_locked_witness :
    updateExpenseStatus c10Env ExpenseStatus.PAID =
      ([], Except.error (ApiError.unauthorized Msg.cannotUpdateProcessing)) :=
  (processing_status_locked c10Env ExpenseStatus.PAID {} c10Expense rfl rfl rfl rfl).1

end OC
